import Mathlib

/-!
Verification of the String Search Server (Python) against its specification.

The development shallowly embeds the relevant parts of the source:
  - server/file_search.py  : load_file, search_string
  - server/config.py       : read_config
  - server/server.py       : StringSearchServer.__init__ / handle_client / start

Python strings are modelled as lists of Unicode code points (List Char),
matching CPython's len/indexing semantics.  Raw socket bytes are List Nat.
Fallible operations return Except PyExc, where PyExc models the Python
exception classes the code distinguishes (in particular SystemExit, which
is NOT a subclass of Exception and so is not caught by except-Exception).
-/

namespace StringSearchSrv

/-- Python strings as lists of code points (CPython len counts code points). -/
abbrev PyStr := List Char

/-- Convert a Lean string literal to the Python-string model. -/
def pyS (s : String) : PyStr := s.data

/-- Python str.isspace code points (the set str.strip() removes). -/
def pyIsSpace (c : Char) : Bool :=
  let n := c.toNat
  (0x09 ≤ n && n ≤ 0x0D) || (0x1C ≤ n && n ≤ 0x1F) || n == 0x20 ||
  n == 0x85 || n == 0xA0 || n == 0x1680 || (0x2000 ≤ n && n ≤ 0x200A) ||
  n == 0x2028 || n == 0x2029 || n == 0x202F || n == 0x205F || n == 0x3000

/-- Python `s.strip()`: remove leading then trailing whitespace. -/
def pyStrip (s : PyStr) : PyStr :=
  List.rdropWhile pyIsSpace (List.dropWhile pyIsSpace s)

/-- Python `s.lower()` restricted to ASCII case mapping (sufficient for the
configuration values compared against the literal "true"). -/
def pyLowerAscii (s : PyStr) : PyStr := s.map Char.toLower

/-- UTF-8 continuation byte test. -/
def isCont (b : Nat) : Bool := 0x80 ≤ b && b ≤ 0xBF

/-- Range check for the second byte of a 3-byte sequence (CPython strict
decoding: E0 requires A0..BF, ED excludes surrogates). -/
def utf8Snd3Ok (b1 b2 : Nat) : Bool :=
  if b1 == 0xE0 then 0xA0 ≤ b2 && b2 ≤ 0xBF
  else if b1 == 0xED then 0x80 ≤ b2 && b2 ≤ 0x9F
  else isCont b2

/-- Range check for the second byte of a 4-byte sequence (F0 requires
90..BF, F4 limits to 80..8F so code points stay below 0x110000). -/
def utf8Snd4Ok (b1 b2 : Nat) : Bool :=
  if b1 == 0xF0 then 0x90 ≤ b2 && b2 ≤ 0xBF
  else if b1 == 0xF4 then 0x80 ≤ b2 && b2 ≤ 0x8F
  else isCont b2

/-- Decode one UTF-8 scalar starting with byte `b1` followed by `rest`;
returns the code point and the remaining bytes.  CPython strict decoding:
rejects overlong encodings, surrogates and out-of-range sequences. -/
def utf8Step (b1 : Nat) (rest : List Nat) : Option (Char × List Nat) :=
  if b1 ≤ 0x7F then some (Char.ofNat b1, rest)
  else if 0xC2 ≤ b1 && b1 ≤ 0xDF then
    match rest with
    | b2 :: rest2 =>
      if isCont b2 then some (Char.ofNat ((b1 - 0xC0) * 64 + (b2 - 0x80)), rest2)
      else none
    | [] => none
  else if 0xE0 ≤ b1 && b1 ≤ 0xEF then
    match rest with
    | b2 :: b3 :: rest3 =>
      if utf8Snd3Ok b1 b2 && isCont b3 then
        some (Char.ofNat ((b1 - 0xE0) * 4096 + (b2 - 0x80) * 64 + (b3 - 0x80)), rest3)
      else none
    | _ => none
  else if 0xF0 ≤ b1 && b1 ≤ 0xF4 then
    match rest with
    | b2 :: b3 :: b4 :: rest4 =>
      if utf8Snd4Ok b1 b2 && isCont b3 && isCont b4 then
        some (Char.ofNat ((b1 - 0xF0) * 262144 + (b2 - 0x80) * 4096 +
          (b3 - 0x80) * 64 + (b4 - 0x80)), rest4)
      else none
    | _ => none
  else none

/-- Decoding loop with explicit fuel (structural recursion so that the
kernel can evaluate it).  Each step consumes at least one byte, so fuel
equal to the byte count never runs out; `utf8DecodeAux_fuel_irrel` below
shows the fuel value is irrelevant as long as it is sufficient. -/
def utf8DecodeAux : Nat → List Nat → Option (List Char)
  | _, [] => some []
  | 0, _ :: _ => none
  | fuel + 1, b1 :: rest =>
    match utf8Step b1 rest with
    | none => none
    | some (c, rest') => (utf8DecodeAux fuel rest').map (fun cs => c :: cs)

/-- Strict UTF-8 decoding of a whole byte string, as Python's
`bytes.decode("utf-8")`; `none` models UnicodeDecodeError. -/
def utf8Decode (bs : List Nat) : Option (List Char) :=
  utf8DecodeAux bs.length bs

/-- Python exception classes the code distinguishes.  `systemExit` models
SystemExit, which derives from BaseException, not Exception. -/
inductive PyExc where
  | systemExit (msg : String)
  | fileMissing
  | sslError
  | valueError
  | unicodeError
deriving DecidableEq, Repr

/-- Whether the exception is a subclass of Exception (and so is caught by
an `except Exception` clause).  SystemExit is not. -/
def PyExc.isException : PyExc → Bool
  | .systemExit _ => false
  | _ => true

/-- Whether the exception is a subclass of OSError (caught by
`except OSError`).  FileNotFoundError and ssl.SSLError both are. -/
def PyExc.isOSError : PyExc → Bool
  | .fileMissing => true
  | .sslError => true
  | _ => false

/-- The SystemExit message produced by load_file on any load failure. -/
def msgLoadFailed : String := "Failed to load file"

/-- file_search.load_file, pure part: `[line.strip() for line in file if line.strip()]`.
A file is a list of the lines Python iteration yields. -/
def pyLoadLines (lines : List PyStr) : List PyStr :=
  (lines.map pyStrip).filter (fun l => l ≠ [])

/-- file_search.load_file: opens `path`; any failure (missing file,
permission, I/O) is caught by its `except Exception` and re-raised as
SystemExit.  The file-system argument is `none` when the file cannot be
read, `some lines` when it holds those lines. -/
def load_file (file : Option (List PyStr)) : Except PyExc (List PyStr) :=
  match file with
  | none => Except.error (PyExc.systemExit msgLoadFailed)
  | some lines => Except.ok (pyLoadLines lines)

/-- Python `set(...)` on a list of strings, modelled as deduplication
(membership-equivalent and duplicate-free). -/
def pySet (l : List PyStr) : List PyStr := l.dedup

/-- file_search.search_string: `query in data` (exact equality membership). -/
def search_string (data : List PyStr) (query : PyStr) : Bool :=
  data.contains query

/-- config.read_config, pure part: strip each line; skip blank lines,
lines starting with '#', and lines without '='; split the rest at the
first '=' and store stripped key/value, later lines overriding earlier
ones.  The resulting dict is modelled as a lookup function. -/
def read_config (lines : List PyStr) : PyStr → Option PyStr :=
  lines.foldl
    (fun d line =>
      let l := pyStrip line
      if l = [] then d
      else if l.head? = some '#' then d
      else if ¬ l.contains '=' then d
      else
        let k := pyStrip (l.takeWhile (fun c => c ≠ '='))
        let v := pyStrip ((l.dropWhile (fun c => c ≠ '=')).drop 1)
        fun x => if x = k then some v else d x)
    (fun _ => none)

/-- Python `int(s)` for the strings the config can hold: optional
surrounding whitespace, optional sign, decimal digits; `none` models
ValueError. -/
def pyIntOpt (s : PyStr) : Option Int :=
  let t := pyStrip s
  let digitsVal : PyStr → Option Int := fun ds =>
    if ds = [] then none
    else if ds.all (fun c => '0' ≤ c && c ≤ '9') then
      some (ds.foldl (fun a c => a * 10 + ((c.toNat : Int) - 48)) 0)
    else none
  match t with
  | '-' :: ds => (digitsVal ds).map (fun n => -n)
  | '+' :: ds => digitsVal ds
  | ds => digitsVal ds

/-- The server state fields __init__ computes (host/port omitted: no claim
touches them). -/
structure ServerState where
  file_path : PyStr
  reread_on_query : Bool
  max_payload : Int
  use_ssl : Bool
  data : List PyStr
deriving DecidableEq, Repr

/-- The external world at a given moment: config file contents, dataset
file contents (none = unreadable/missing), result of loading the TLS
material (none = success), and whether the socket bind succeeds. -/
structure Env where
  configFile : Option (List PyStr)
  dataFile : Option (List PyStr)
  certResult : Option PyExc
  bindOk : Bool

def msgConfigMissing : String := "Config file not found. Please ensure config.txt exists."
def msgLinuxpathMissing : String := "Missing linuxpath in config.txt."
def msgSslFailed : String := "SSL setup failed"
def msgStartFailed : String := "Could not start server"

/-- `str(self.config.get("reread_on_query", "False")).lower() == "true"`. -/
def rereadFlagOf (v : Option PyStr) : Bool :=
  pyLowerAscii (v.getD (pyS "False")) = pyS "true"

/-- `bool(self.config.get("use_ssl", False))`: a missing key gives
bool(False) = False; a present key gives bool(str), which is True for any
non-empty string, including "false" and "0". -/
def sslFlagOf (v : Option PyStr) : Bool :=
  match v with
  | none => false
  | some s => s ≠ []

/-- StringSearchServer.__init__ after the config file has been read:
check linuxpath (missing/empty → SystemExit), parse flags and
max_payload, then in cached mode load the dataset.  load_file only ever
raises SystemExit, which neither `except FileNotFoundError` nor
`except Exception` catches, so a load failure propagates as that
SystemExit. -/
def initFromConfig (config : PyStr → Option PyStr)
    (dataFile : Option (List PyStr)) : Except PyExc ServerState :=
  if (config (pyS "linuxpath")).getD [] = [] then
    Except.error (PyExc.systemExit msgLinuxpathMissing)
  else
    match (match config (pyS "max_payload") with
           | none => some (1024 : Int)
           | some v => pyIntOpt v) with
    | none => Except.error PyExc.valueError
    | some mp =>
      match (if rereadFlagOf (config (pyS "reread_on_query")) then
               Except.ok ([] : List PyStr)
             else (load_file dataFile).map pySet) with
      | Except.error e =>
        if e = PyExc.fileMissing then
          Except.error (PyExc.systemExit msgLoadFailed)
        else if e.isException then
          Except.error (PyExc.systemExit msgLoadFailed)
        else Except.error e
      | Except.ok d =>
        Except.ok ⟨(config (pyS "linuxpath")).getD [],
          rereadFlagOf (config (pyS "reread_on_query")), mp,
          sslFlagOf (config (pyS "use_ssl")), d⟩

/-- The whole of __init__: read the config file first (missing →
SystemExit), then the field computations of `initFromConfig`. -/
def serverInit (env : Env) : Except PyExc ServerState :=
  match env.configFile with
  | none => Except.error (PyExc.systemExit msgConfigMissing)
  | some cfgLines => initFromConfig (read_config cfgLines) env.dataFile

/-- StringSearchServer.start up to entering the accept loop: bind (OSError
→ SystemExit via the outer handler), then if use_ssl wrap the socket
(ssl.SSLError → SystemExit "SSL setup failed"; other OSError, e.g. a
missing certificate file, escapes to the outer `except OSError` →
SystemExit "Could not start server").  `.ok ()` means the accept loop was
entered. -/
def serverStart (S : ServerState) (env : Env) : Except PyExc Unit :=
  if ¬ env.bindOk then Except.error (PyExc.systemExit msgStartFailed)
  else if S.use_ssl then
    match env.certResult with
    | none => Except.ok ()
    | some PyExc.sslError => Except.error (PyExc.systemExit msgSslFailed)
    | some e =>
      if e.isOSError then Except.error (PyExc.systemExit msgStartFailed)
      else Except.error e
  else Except.ok ()

/-- Full startup: __init__ then start; `.ok ()` = the accept loop runs. -/
def serverBoot (env : Env) : Except PyExc Unit :=
  match serverInit env with
  | Except.error e => Except.error e
  | Except.ok S => serverStart S env

/-- Observable outcome of one handle_client run: the response lines
written (in order), whether the success log line ran, whether an error was
logged, whether the connection was closed (the finally block), and the
exception escaping the handler, if any. -/
structure HandlerResult where
  responses : List String
  loggedQuery : Bool
  loggedError : Bool
  closed : Bool
  escaped : Option PyExc
deriving DecidableEq, Repr

/-- Line 73 of server.py: the dataset view a query uses —
`set(load_file(self.file_path)) if self.reread_on_query else self.data`.
`fileNow` is the dataset file's contents at query time. -/
def dataView (S : ServerState) (fileNow : Option (List PyStr)) :
    Except PyExc (List PyStr) :=
  if S.reread_on_query then (load_file fileNow).map pySet
  else Except.ok S.data

/-- StringSearchServer.handle_client for one connection whose single recv
returned `raw` (at most max_payload + 1 bytes).  The try/except catches
ConnectionResetError/BrokenPipeError and Exception; SystemExit (raised by
load_file in reread mode) is caught by neither and escapes after the
finally block closes the connection. -/
def handle_client (S : ServerState) (fileNow : Option (List PyStr))
    (raw : List Nat) : HandlerResult :=
  if raw = [] then ⟨["STRING NOT FOUND\n"], false, false, true, none⟩
  else if (raw.length : Int) > S.max_payload then
    ⟨["QUERY TOO LARGE\n"], false, false, true, none⟩
  else
    match utf8Decode raw with
    | none => ⟨["INVALID ENCODING\n"], false, false, true, none⟩
    | some decoded =>
      if (pyStrip decoded).length = 0 then
        ⟨["STRING NOT FOUND\n"], false, false, true, none⟩
      else if ((pyStrip decoded).length : Int) > S.max_payload then
        ⟨["QUERY TOO LARGE\n"], false, false, true, none⟩
      else
        match dataView S fileNow with
        | Except.error e =>
          if e.isException then ⟨[], false, true, true, none⟩
          else ⟨[], false, false, true, some e⟩
        | Except.ok data =>
          if search_string data (pyStrip decoded) then
            ⟨["STRING EXISTS\n"], true, false, true, none⟩
          else ⟨["STRING NOT FOUND\n"], true, false, true, none⟩

/-- What becomes of an exception escaping Thread.run in CPython: the
default threading.excepthook silently ignores SystemExit and prints a
report for anything else; in neither case does the process terminate. -/
inductive ThreadEnd where
  | completed
  | ignoredSystemExit
  | reportedExc
deriving DecidableEq, Repr

/-- Run one handler on its own thread (server.py line 119 spawns a daemon
thread per connection) and classify how the thread ends. -/
def threadRun (r : HandlerResult) : ThreadEnd :=
  match r.escaped with
  | none => ThreadEnd.completed
  | some (PyExc.systemExit _) => ThreadEnd.ignoredSystemExit
  | some _ => ThreadEnd.reportedExc

/-- Modelled CPython threading semantics: no way a worker thread ends —
normal return, swallowed SystemExit, or a reported exception — terminates
the server process. -/
def killsProcess : ThreadEnd → Bool
  | _ => false

/-- The four fixed response lines of the wire protocol. -/
def responseVocab : List String :=
  ["STRING EXISTS\n", "STRING NOT FOUND\n", "QUERY TOO LARGE\n", "INVALID ENCODING\n"]

/- Concrete sample data used by witnesses and counterexamples. -/

/-- A small dataset file: the lines Python iteration yields. -/
def demoLines : List PyStr := [pyS "apple\n", pyS "banana\n"]

/-- A server in cached mode over `demoLines`, max_payload 1024. -/
def demoCache : ServerState :=
  ⟨pyS "/d.txt", false, 1024, false, pySet (pyLoadLines demoLines)⟩

/-- A server in reread mode, max_payload 1024 (self.data left empty by
__init__ in this mode). -/
def demoReread : ServerState := ⟨pyS "/d.txt", true, 1024, false, []⟩

/-- The bytes of "apple". -/
def appleBytes : List Nat := [97, 112, 112, 108, 101]

/-- The bytes of "banana". -/
def bananaBytes : List Nat := [98, 97, 110, 97, 110, 97]

/-- The bytes of "mango". -/
def mangoBytes : List Nat := [109, 97, 110, 103, 111]

/-- A startup environment whose config sets use_ssl=false and
reread_on_query=false, with a readable (empty) dataset file. -/
def envFalseFlags : Env :=
  ⟨some [pyS "linuxpath=/d.txt", pyS "use_ssl=false", pyS "reread_on_query=false"],
   some [], none, true⟩

/- ------------------------------------------------------------------ -/
/- Helper lemmas                                                      -/
/- ------------------------------------------------------------------ -/

set_option maxRecDepth 4096 in
/-- The bytes left over by one decoding step are no more than the input. -/
theorem utf8Step_length {b1 : Nat} {rest : List Nat} {c : Char} {rest' : List Nat}
    (h : utf8Step b1 rest = some (c, rest')) : rest'.length ≤ rest.length := by
  unfold utf8Step at h
  repeat' split at h
  all_goals cases h
  all_goals (try simp only [List.length_cons]) <;> omega

/-- With sufficient fuel, the decoding loop does not depend on the exact
fuel value, so taking fuel = byte count in `utf8Decode` is harmless. -/
theorem utf8DecodeAux_fuel_irrel :
    ∀ (fuel fuel' : Nat) (bs : List Nat), bs.length ≤ fuel → bs.length ≤ fuel' →
      utf8DecodeAux fuel bs = utf8DecodeAux fuel' bs := by
  intro fuel
  induction fuel with
  | zero =>
    intro fuel' bs h h'
    match bs with
    | [] => cases fuel' <;> rfl
    | b :: t => simp at h
  | succ f ih =>
    intro fuel' bs h h'
    match bs with
    | [] => cases fuel' <;> rfl
    | b1 :: rest =>
      match fuel' with
      | 0 => simp at h'
      | f' + 1 =>
        simp only [utf8DecodeAux]
        cases hstep : utf8Step b1 rest with
        | none => rfl
        | some cr =>
          obtain ⟨c, rest'⟩ := cr
          have hlen := utf8Step_length hstep
          simp only [List.length_cons] at h h'
          exact congrArg (Option.map (fun cs => c :: cs)) (ih f' rest' (by omega) (by omega))

/-- Every decoded code point consumes at least one input byte, so the
decoded length never exceeds the byte length (CPython: len of str counts
code points; a 4-byte sequence is a single code point). -/
theorem utf8DecodeAux_length_le :
    ∀ (fuel : Nat) (bs : List Nat) (cs : List Char),
      utf8DecodeAux fuel bs = some cs → cs.length ≤ bs.length := by
  intro fuel
  induction fuel with
  | zero =>
    intro bs cs h
    match bs with
    | [] =>
      simp only [utf8DecodeAux] at h
      simp [← Option.some_inj.mp h]
    | b :: t => exact Option.noConfusion h
  | succ f ih =>
    intro bs cs h
    match bs with
    | [] =>
      simp only [utf8DecodeAux] at h
      simp [← Option.some_inj.mp h]
    | b1 :: rest =>
      simp only [utf8DecodeAux] at h
      cases hstep : utf8Step b1 rest with
      | none => rw [hstep] at h; exact Option.noConfusion h
      | some cr =>
        obtain ⟨c, rest'⟩ := cr
        rw [hstep, Option.map_eq_some'] at h
        obtain ⟨cs', hcs', rfl⟩ := h
        have h1 := ih rest' cs' hcs'
        have h2 := utf8Step_length hstep
        simp only [List.length_cons]
        omega

/-- Length bound transferred to the top-level decoder. -/
theorem utf8Decode_length_le (bs : List Nat) (cs : List Char)
    (h : utf8Decode bs = some cs) : cs.length ≤ bs.length :=
  utf8DecodeAux_length_le bs.length bs cs h

/-- Stripping only removes characters. -/
theorem pyStrip_length_le (s : PyStr) : (pyStrip s).length ≤ s.length := by
  unfold pyStrip
  calc (List.rdropWhile pyIsSpace (List.dropWhile pyIsSpace s)).length
      ≤ (List.dropWhile pyIsSpace s).length :=
        List.IsPrefix.length_le (List.rdropWhile_prefix _ _)
    _ ≤ s.length := List.IsSuffix.length_le (List.dropWhile_suffix _)

/-- Stripping is idempotent. -/
theorem pyStrip_idem (s : PyStr) : pyStrip (pyStrip s) = pyStrip s := by
  unfold pyStrip
  have h1 : List.dropWhile pyIsSpace
      (List.rdropWhile pyIsSpace (List.dropWhile pyIsSpace s)) =
      List.rdropWhile pyIsSpace (List.dropWhile pyIsSpace s) := by
    rw [List.dropWhile_eq_self_iff]
    intro hl
    have hpre := List.rdropWhile_prefix pyIsSpace (List.dropWhile pyIsSpace s)
    have hlen : 0 < (List.dropWhile pyIsSpace s).length :=
      lt_of_lt_of_le hl (List.IsPrefix.length_le hpre)
    have hget : (List.rdropWhile pyIsSpace (List.dropWhile pyIsSpace s)).get ⟨0, hl⟩ =
        (List.dropWhile pyIsSpace s).get ⟨0, hlen⟩ := by
      simpa [List.get_eq_getElem] using List.IsPrefix.getElem hpre hl
    rw [hget]
    exact List.dropWhile_get_zero_not pyIsSpace s hlen
  rw [h1, List.rdropWhile_idempotent]

/-- Reduction of handle_client for a valid, in-size, non-blank query when
the dataset view resolves: the handler answers by membership alone. -/
theorem handle_client_lookup (S : ServerState) (fileNow : Option (List PyStr))
    (raw : List Nat) (s : List Char) (D : List PyStr)
    (hne : raw ≠ []) (hlen : (raw.length : Int) ≤ S.max_payload)
    (hdec : utf8Decode raw = some s) (hq : pyStrip s ≠ [])
    (hD : dataView S fileNow = Except.ok D) :
    handle_client S fileNow raw =
      if search_string D (pyStrip s) then
        ⟨["STRING EXISTS\n"], true, false, true, none⟩
      else ⟨["STRING NOT FOUND\n"], true, false, true, none⟩ := by
  have h1 := utf8Decode_length_le raw s hdec
  have h2 := pyStrip_length_le s
  have hgt : ¬ ((raw.length : Int) > S.max_payload) := not_lt.mpr hlen
  have hql : ¬ (((pyStrip s).length : Int) > S.max_payload) := by
    rw [not_lt]
    rw [not_lt] at hgt
    omega
  have hq0 : ¬ (pyStrip s).length = 0 := by
    simpa [List.length_eq_zero] using hq
  unfold handle_client
  rw [if_neg hne, if_neg hgt, hdec]
  simp only [if_neg hq0, if_neg hql, hD]

/- ------------------------------------------------------------------ -/
/- Claim theorems                                                     -/
/- ------------------------------------------------------------------ -/

/-- C2: for any dataset view D and any non-empty, within-limit payload
decoding to s, the handler answers STRING EXISTS exactly when the trimmed
query is a member of D (exact full-line equality — substrings or prefixes
of dataset lines never match), and STRING NOT FOUND when it is absent. -/
theorem exact_match_lookup (S : ServerState) (fileNow : Option (List PyStr))
    (raw : List Nat) (s : List Char) (D : List PyStr)
    (hne : raw ≠ []) (hlen : (raw.length : Int) ≤ S.max_payload)
    (hdec : utf8Decode raw = some s) (hq : pyStrip s ≠ [])
    (hD : dataView S fileNow = Except.ok D) :
    ((handle_client S fileNow raw).responses = ["STRING EXISTS\n"] ↔ pyStrip s ∈ D) ∧
    (pyStrip s ∉ D →
      (handle_client S fileNow raw).responses = ["STRING NOT FOUND\n"]) := by
  rw [handle_client_lookup S fileNow raw s D hne hlen hdec hq hD]
  by_cases hmem : pyStrip s ∈ D
  · simp [search_string, List.elem_iff, hmem]
  · simp [search_string, List.elem_iff, hmem]

/-- C2 witness: "banana" is in the demo dataset and answered EXISTS;
"mango" is absent and answered NOT FOUND. -/
theorem exact_match_lookup_witness :
    (handle_client demoCache (some demoLines) bananaBytes).responses =
      ["STRING EXISTS\n"] ∧
    (handle_client demoCache (some demoLines) mangoBytes).responses =
      ["STRING NOT FOUND\n"] := by
  constructor
  · exact (exact_match_lookup demoCache (some demoLines) bananaBytes
      (pyS "banana") (pySet (pyLoadLines demoLines))
      (by decide) (by decide) (by decide) (by decide) rfl).1.mpr (by decide)
  · exact (exact_match_lookup demoCache (some demoLines) mangoBytes
      (pyS "mango") (pySet (pyLoadLines demoLines))
      (by decide) (by decide) (by decide) (by decide) rfl).2 (by decide)

/-- C3: a non-empty raw payload longer than max_payload is answered QUERY
TOO LARGE.  The conclusion holds for every server state and every current
file content and says nothing was decoded or looked up: the outcome is a
constant, independent of the payload's decodability and of the dataset. -/
theorem oversized_raw_is_too_large (S : ServerState) (fileNow : Option (List PyStr))
    (raw : List Nat) (hne : raw ≠ []) (hgt : (raw.length : Int) > S.max_payload) :
    handle_client S fileNow raw =
      ⟨["QUERY TOO LARGE\n"], false, false, true, none⟩ := by
  unfold handle_client
  rw [if_neg hne, if_pos hgt]

/-- C3 witness: 1025 copies of the undecodable byte 0xFF against a
1024-byte limit. -/
theorem oversized_raw_is_too_large_witness :
    handle_client demoCache none (List.replicate 1025 255) =
      ⟨["QUERY TOO LARGE\n"], false, false, true, none⟩ :=
  oversized_raw_is_too_large demoCache none (List.replicate 1025 255)
    (by
      intro h
      have h2 := congrArg List.length h
      simp only [List.length_replicate, List.length_nil] at h2
      omega)
    (by norm_num [demoCache, List.length_replicate])

/-- C4: a zero-byte read and a within-limit UTF-8 payload whose text is
empty after trimming are both answered STRING NOT FOUND, with no error
raised or logged. -/
theorem empty_and_blank_queries_not_found (S : ServerState)
    (fileNow : Option (List PyStr)) (raw : List Nat) (s : List Char)
    (hne : raw ≠ []) (hlen : (raw.length : Int) ≤ S.max_payload)
    (hdec : utf8Decode raw = some s) (hblank : pyStrip s = []) :
    handle_client S fileNow [] = ⟨["STRING NOT FOUND\n"], false, false, true, none⟩ ∧
    handle_client S fileNow raw = ⟨["STRING NOT FOUND\n"], false, false, true, none⟩ := by
  constructor
  · unfold handle_client
    rw [if_pos rfl]
  · have hgt : ¬ ((raw.length : Int) > S.max_payload) := not_lt.mpr hlen
    unfold handle_client
    rw [if_neg hne, if_neg hgt, hdec]
    simp [hblank]

/-- C4 witness: the empty read and the whitespace payload " \n\t". -/
theorem empty_and_blank_queries_not_found_witness :
    handle_client demoCache (some demoLines) [] =
      ⟨["STRING NOT FOUND\n"], false, false, true, none⟩ ∧
    handle_client demoCache (some demoLines) [32, 10, 9] =
      ⟨["STRING NOT FOUND\n"], false, false, true, none⟩ :=
  empty_and_blank_queries_not_found demoCache (some demoLines) [32, 10, 9]
    [' ', '\n', '\t'] (by decide) (by decide) (by decide) (by decide)

/-- C10: (1) a payload that passes the byte-size check and decodes as
UTF-8 always has a trimmed decoded length within max_payload, so the
post-decode size re-check can never fire; (2) consequently QUERY TOO LARGE
is produced only when the received byte length exceeds max_payload. -/
theorem too_large_only_from_byte_check :
    (∀ (mp : Int) (raw : List Nat) (s : List Char),
        utf8Decode raw = some s → (raw.length : Int) ≤ mp →
        ((pyStrip s).length : Int) ≤ mp) ∧
    (∀ (S : ServerState) (fileNow : Option (List PyStr)) (raw : List Nat),
        (handle_client S fileNow raw).responses = ["QUERY TOO LARGE\n"] →
        (raw.length : Int) > S.max_payload) := by
  have key : ∀ (mp : Int) (raw : List Nat) (s : List Char),
      utf8Decode raw = some s → (raw.length : Int) ≤ mp →
      ((pyStrip s).length : Int) ≤ mp := by
    intro mp raw s hdec hlen
    have h1 := utf8Decode_length_le raw s hdec
    have h2 := pyStrip_length_le s
    omega
  refine ⟨key, ?_⟩
  intro S fileNow raw h
  by_contra hcon
  push_neg at hcon
  by_cases hne : raw = []
  · subst hne
    simp [handle_client] at h
  · unfold handle_client at h
    rw [if_neg hne, if_neg (not_lt.mpr hcon)] at h
    cases hdec : utf8Decode raw with
    | none =>
      rw [hdec] at h
      simp at h
    | some s =>
      rw [hdec] at h
      by_cases hq0 : (pyStrip s).length = 0
      · simp [hq0] at h
      · have hql : ¬ (((pyStrip s).length : Int) > S.max_payload) :=
          not_lt.mpr (key S.max_payload raw s hdec hcon)
        simp only [if_neg hq0, if_neg hql] at h
        cases hDV : dataView S fileNow with
        | error e =>
          rw [hDV] at h
          by_cases he : e.isException = true <;> simp [he] at h
        | ok D =>
          rw [hDV] at h
          by_cases hs : search_string D (pyStrip s) = true <;> simp [hs] at h

/-- C10 witness: the bound instantiated at "apple" within limit 1024. -/
theorem too_large_only_from_byte_check_witness :
    ((pyStrip (pyS "apple")).length : Int) ≤ 1024 :=
  too_large_only_from_byte_check.1 1024 appleBytes (pyS "apple")
    (by decide) (by decide)

/-- C5: the dataset view is determined solely by the reread flag.  With
reread disabled the handler's entire outcome is independent of the file's
current contents (cache-freeze); with reread enabled a valid query is
answered from a set freshly built from the file's current contents
(freshness), so a file modification made before the query is reflected. -/
theorem dataset_view_by_reread_flag (S : ServerState) (raw : List Nat) :
    (S.reread_on_query = false →
      ∀ f f' : Option (List PyStr), handle_client S f raw = handle_client S f' raw) ∧
    (S.reread_on_query = true →
      ∀ (lines : List PyStr) (s : List Char),
        raw ≠ [] → (raw.length : Int) ≤ S.max_payload →
        utf8Decode raw = some s → pyStrip s ≠ [] →
        (handle_client S (some lines) raw).responses =
          [if pyStrip s ∈ pySet (pyLoadLines lines) then "STRING EXISTS\n"
           else "STRING NOT FOUND\n"]) := by
  constructor
  · intro h f f'
    simp [handle_client, dataView, h]
  · intro hrr lines s hne hlen hdec hq
    have hD : dataView S (some lines) = Except.ok (pySet (pyLoadLines lines)) := by
      simp [dataView, hrr, load_file, Except.map]
    rw [handle_client_lookup S (some lines) raw s (pySet (pyLoadLines lines))
      hne hlen hdec hq hD]
    by_cases hmem : pyStrip s ∈ pySet (pyLoadLines lines)
    · simp [search_string, List.elem_iff, hmem]
    · simp [search_string, List.elem_iff, hmem]

/-- C5 witness: the same query "mango" answered EXISTS when the file now
holds "mango" and NOT FOUND when it holds the original lines (reread
mode); in cached mode the outcome is identical whatever the file holds. -/
theorem dataset_view_by_reread_flag_witness :
    (handle_client demoReread (some [pyS "mango\n"]) mangoBytes).responses =
      ["STRING EXISTS\n"] ∧
    (handle_client demoReread (some demoLines) mangoBytes).responses =
      ["STRING NOT FOUND\n"] ∧
    handle_client demoCache (some [pyS "mango\n"]) mangoBytes =
      handle_client demoCache none mangoBytes := by
  refine ⟨?_, ?_, ?_⟩
  · have h := (dataset_view_by_reread_flag demoReread mangoBytes).2 rfl
      [pyS "mango\n"] (pyS "mango") (by decide) (by decide) (by decide) (by decide)
    rw [h, if_pos (by decide)]
  · have h := (dataset_view_by_reread_flag demoReread mangoBytes).2 rfl
      demoLines (pyS "mango") (by decide) (by decide) (by decide) (by decide)
    rw [h, if_neg (by decide)]
  · exact (dataset_view_by_reread_flag demoCache mangoBytes).1 rfl
      (some [pyS "mango\n"]) none

/-- C1 counterexample: in reread mode with an unreadable dataset file, a
valid query "apple" gets NO response at all (neither NOT FOUND nor an
internal-error line) and nothing is logged — the claim's "at minimum
logging the failure and responding NOT_FOUND" is false: load_file's
SystemExit is not caught by the handler's except clauses. -/
theorem reread_load_failure_counterexample :
    (handle_client demoReread none appleBytes).responses = [] ∧
    (handle_client demoReread none appleBytes).loggedError = false ∧
    (handle_client demoReread none appleBytes).loggedQuery = false ∧
    (handle_client demoReread none appleBytes).escaped =
      some (PyExc.systemExit msgLoadFailed) := by
  refine ⟨rfl, rfl, rfl, rfl⟩

/-- C1 amended: a mid-query dataset load failure in reread mode does not
terminate the server process and leaves every other connection unaffected
— but not by handler-level recovery: load_file raises SystemExit, which
`except Exception` does not catch, so the handler sends no response and
logs nothing; the connection is closed by the finally block and the
thread machinery silently swallows the SystemExit. -/
theorem reread_load_failure_behavior (S : ServerState) (raw : List Nat)
    (s : List Char) (hrr : S.reread_on_query = true) (hne : raw ≠ [])
    (hlen : (raw.length : Int) ≤ S.max_payload)
    (hdec : utf8Decode raw = some s) (hq : pyStrip s ≠ []) :
    handle_client S none raw =
      ⟨[], false, false, true, some (PyExc.systemExit msgLoadFailed)⟩ ∧
    killsProcess (threadRun (handle_client S none raw)) = false := by
  have hgt : ¬ ((raw.length : Int) > S.max_payload) := not_lt.mpr hlen
  have hq0 : ¬ (pyStrip s).length = 0 := by
    simpa [List.length_eq_zero] using hq
  have hql : ¬ (((pyStrip s).length : Int) > S.max_payload) := by
    have h1 := utf8Decode_length_le raw s hdec
    have h2 := pyStrip_length_le s
    rw [not_lt]
    rw [not_lt] at hgt
    omega
  have hD : dataView S none =
      Except.error (PyExc.systemExit msgLoadFailed) := by
    simp [dataView, hrr, load_file, Except.map]
  have hmain : handle_client S none raw =
      ⟨[], false, false, true, some (PyExc.systemExit msgLoadFailed)⟩ := by
    unfold handle_client
    rw [if_neg hne, if_neg hgt, hdec]
    simp only [if_neg hq0, if_neg hql, hD]
    rfl
  refine ⟨hmain, ?_⟩
  rw [hmain]
  rfl

/-- C1 witness for the amended behavior at a concrete state and query. -/
theorem reread_load_failure_behavior_witness :
    handle_client demoReread none bananaBytes =
      ⟨[], false, false, true, some (PyExc.systemExit msgLoadFailed)⟩ ∧
    killsProcess (threadRun (handle_client demoReread none bananaBytes)) = false :=
  reread_load_failure_behavior demoReread bananaBytes (pyS "banana")
    rfl (by decide) (by decide) (by decide) (by decide)

/-- Exhaustive outcome analysis of handle_client when the dataset view
resolves successfully. -/
theorem handle_client_view_ok (S : ServerState) (fileNow : Option (List PyStr))
    (raw : List Nat) (D : List PyStr) (hD : dataView S fileNow = Except.ok D) :
    handle_client S fileNow raw = ⟨["STRING NOT FOUND\n"], false, false, true, none⟩ ∨
    handle_client S fileNow raw = ⟨["QUERY TOO LARGE\n"], false, false, true, none⟩ ∨
    handle_client S fileNow raw = ⟨["INVALID ENCODING\n"], false, false, true, none⟩ ∨
    handle_client S fileNow raw = ⟨["STRING EXISTS\n"], true, false, true, none⟩ ∨
    handle_client S fileNow raw = ⟨["STRING NOT FOUND\n"], true, false, true, none⟩ := by
  by_cases hne : raw = []
  · refine Or.inl ?_
    unfold handle_client
    rw [if_pos hne]
  · by_cases hgt : (raw.length : Int) > S.max_payload
    · refine Or.inr (Or.inl ?_)
      unfold handle_client
      rw [if_neg hne, if_pos hgt]
    · cases hdec : utf8Decode raw with
      | none =>
        refine Or.inr (Or.inr (Or.inl ?_))
        unfold handle_client
        rw [if_neg hne, if_neg hgt, hdec]
      | some s =>
        by_cases hq0 : (pyStrip s).length = 0
        · refine Or.inl ?_
          unfold handle_client
          rw [if_neg hne, if_neg hgt, hdec]
          simp only [if_pos hq0]
        · by_cases hql : ((pyStrip s).length : Int) > S.max_payload
          · refine Or.inr (Or.inl ?_)
            unfold handle_client
            rw [if_neg hne, if_neg hgt, hdec]
            simp only [if_neg hq0, if_pos hql]
          · by_cases hs : search_string D (pyStrip s) = true
            · refine Or.inr (Or.inr (Or.inr (Or.inl ?_)))
              unfold handle_client
              rw [if_neg hne, if_neg hgt, hdec]
              simp only [if_neg hq0, if_neg hql, hD]
              rw [if_pos hs]
            · refine Or.inr (Or.inr (Or.inr (Or.inr ?_)))
              unfold handle_client
              rw [if_neg hne, if_neg hgt, hdec]
              simp only [if_neg hq0, if_neg hql, hD]
              rw [if_neg hs]

/-- C7 counterexample: in reread mode with an unreadable dataset file the
handler sends no response line at all and the failure (load_file's
SystemExit) escapes the handler — against "exactly one response line" and
"no request-level condition escapes the handler" (the spec itself files
RereadLoadFailure under request-level conditions). -/
theorem single_response_counterexample :
    (handle_client demoReread none mangoBytes).responses = [] ∧
    (handle_client demoReread none mangoBytes).escaped ≠ none := by
  exact ⟨rfl, by decide⟩

/-- C7 amended: whenever the dataset view resolves (always the case in
cached mode, and in reread mode when the reload succeeds), the handler
sends exactly one response line, bit-exact one of the four fixed strings,
nothing escapes the handler, and the connection is closed afterwards; a
failing reload in reread mode instead sends nothing and lets SystemExit
escape the handler. -/
theorem single_response_when_view_ok (S : ServerState)
    (fileNow : Option (List PyStr)) (raw : List Nat) (D : List PyStr)
    (hD : dataView S fileNow = Except.ok D) :
    ∃ resp, (handle_client S fileNow raw).responses = [resp] ∧
      resp ∈ responseVocab ∧
      (handle_client S fileNow raw).escaped = none ∧
      (handle_client S fileNow raw).closed = true := by
  rcases handle_client_view_ok S fileNow raw D hD with h | h | h | h | h <;>
    rw [h] <;> exact ⟨_, rfl, by simp [responseVocab], rfl, rfl⟩

/-- C7 witness at a concrete cached-mode connection. -/
theorem single_response_when_view_ok_witness :
    ∃ resp, (handle_client demoCache none appleBytes).responses = [resp] ∧
      resp ∈ responseVocab ∧
      (handle_client demoCache none appleBytes).escaped = none ∧
      (handle_client demoCache none appleBytes).closed = true :=
  single_response_when_view_ok demoCache none appleBytes demoCache.data rfl

/-- C6 counterexample: for the file line "  hello\n" the stored dataset is
{"hello"}: the leading whitespace is NOT kept (line.strip() trims both
ends), contradicting the claim that leading whitespace stays part of the
stored string. -/
theorem load_strips_leading_ws_counterexample :
    pySet (pyLoadLines [pyS "  hello\n"]) = [pyS "hello"] ∧
    pyS "  hello" ∉ pySet (pyLoadLines [pyS "  hello\n"]) := by
  exact ⟨rfl, by decide⟩

/-- C6 amended: dataset construction reads the file line by line, trims
BOTH leading and trailing whitespace from each line (Python str.strip),
discards lines blank after trimming, and yields a set of distinct, fully
trimmed, non-empty strings; membership is exactly "some input line strips
to it". -/
theorem dataset_construction_amended (lines : List PyStr) :
    (pySet (pyLoadLines lines)).Nodup ∧
    (∀ q : PyStr, q ∈ pySet (pyLoadLines lines) ↔
      (q ≠ [] ∧ ∃ l ∈ lines, pyStrip l = q)) ∧
    (∀ q ∈ pySet (pyLoadLines lines), pyStrip q = q) := by
  have hmem : ∀ q : PyStr, q ∈ pySet (pyLoadLines lines) ↔
      (q ≠ [] ∧ ∃ l ∈ lines, pyStrip l = q) := by
    intro q
    unfold pySet pyLoadLines
    rw [List.mem_dedup, List.mem_filter]
    simp only [List.mem_map, decide_eq_true_eq]
    tauto
  refine ⟨List.nodup_dedup _, hmem, ?_⟩
  intro q hq
  obtain ⟨-, l, -, rfl⟩ := (hmem q).mp hq
  exact pyStrip_idem l

/-- C6 amended witness: "apple" is in the demo dataset because the line
"apple\n" strips to it. -/
theorem dataset_construction_amended_witness :
    pyS "apple" ∈ pySet (pyLoadLines demoLines) :=
  ((dataset_construction_amended demoLines).2.1 (pyS "apple")).mpr
    ⟨by decide, pyS "apple\n", by decide, by decide⟩

/-- C8: each startup-fatal condition — missing config file, missing
linuxpath key, dataset-load failure in cached mode, TLS material load
failure, and bind failure — ends startup in SystemExit with a descriptive
message, and the accept loop (the `.ok ()` outcome) is never entered.
The linuxpath check fails already inside __init__ — before start() binds
any socket — whatever the rest of the environment (dataFile, certResult
and bindOk are arbitrary in the conjunct). -/
theorem startup_fatal_conditions (env : Env) :
    (env.configFile = none →
      serverBoot env = Except.error (PyExc.systemExit msgConfigMissing)) ∧
    (∀ cfgLines, env.configFile = some cfgLines →
      (read_config cfgLines (pyS "linuxpath")).getD [] = [] →
      serverInit env = Except.error (PyExc.systemExit msgLinuxpathMissing) ∧
      serverBoot env = Except.error (PyExc.systemExit msgLinuxpathMissing)) ∧
    (∀ cfgLines, env.configFile = some cfgLines →
      (read_config cfgLines (pyS "linuxpath")).getD [] ≠ [] →
      rereadFlagOf (read_config cfgLines (pyS "reread_on_query")) = false →
      (∃ mp : Int, (match read_config cfgLines (pyS "max_payload") with
        | none => some (1024 : Int)
        | some v => pyIntOpt v) = some mp) →
      env.dataFile = none →
      serverBoot env = Except.error (PyExc.systemExit msgLoadFailed)) ∧
    (∀ S, serverInit env = Except.ok S → S.use_ssl = true → env.bindOk = true →
      ∀ e, env.certResult = some e → e.isOSError = true →
      (serverBoot env = Except.error (PyExc.systemExit msgSslFailed) ∨
       serverBoot env = Except.error (PyExc.systemExit msgStartFailed))) ∧
    (∀ S, serverInit env = Except.ok S → env.bindOk = false →
      serverBoot env = Except.error (PyExc.systemExit msgStartFailed)) ∧
    (∀ msg, serverBoot env = Except.error (PyExc.systemExit msg) →
      serverBoot env ≠ Except.ok ()) := by
  refine ⟨?_, ?_, ?_, ?_, ?_, ?_⟩
  · intro h
    simp [serverBoot, serverInit, h]
  · intro cfgLines hc hnil
    constructor
    · simp [serverInit, initFromConfig, hc, hnil]
    · simp [serverBoot, serverInit, initFromConfig, hc, hnil]
  · rintro cfgLines hc hfp hrr ⟨mp, hmp⟩ hdf
    simp [serverBoot, serverInit, initFromConfig, hc, hfp, hrr, hmp, hdf,
      load_file, Except.map, PyExc.isException]
  · intro S hS hssl hbind e hcert hos
    cases e with
    | sslError =>
      refine Or.inl ?_
      simp [serverBoot, hS, serverStart, hbind, hssl, hcert]
    | fileMissing =>
      refine Or.inr ?_
      simp [serverBoot, hS, serverStart, hbind, hssl, hcert, PyExc.isOSError]
    | systemExit m => simp [PyExc.isOSError] at hos
    | valueError => simp [PyExc.isOSError] at hos
    | unicodeError => simp [PyExc.isOSError] at hos
  · intro S hS hb
    simp [serverBoot, hS, serverStart, hb]
  · intro msg h
    rw [h]
    simp

/-- C8 witness: a config holding only max_payload makes __init__ exit with
the missing-linuxpath message, with no socket ever created (bindOk is
false in the environment and never consulted). -/
theorem startup_fatal_conditions_witness :
    serverInit ⟨some [pyS "max_payload=1024"], none, none, false⟩ =
      Except.error (PyExc.systemExit msgLinuxpathMissing) :=
  ((startup_fatal_conditions ⟨some [pyS "max_payload=1024"], none, none, false⟩).2.1
    [pyS "max_payload=1024"] rfl (by decide)).1

/-- C9 counterexample: with `use_ssl=false` and `reread_on_query=false` in
the config, __init__ ENABLES SSL — `bool("false")` is truthy — while
reread stays disabled: the string "false" does not disable use_ssl and
the two keys are not interpreted by one truthiness rule. -/
theorem flag_truthiness_counterexample :
    serverInit envFalseFlags =
      Except.ok ⟨pyS "/d.txt", false, 1024, true, []⟩ := by
  rfl

/-- C9 amended: reread_on_query is enabled exactly when its configured
value lowercases to "true" (absent treated as "False"); use_ssl is
enabled exactly when its key is present with a non-empty value — so
"false" and "0" still enable it — and the two keys are therefore read by
different rules. -/
theorem flag_parsing_amended (config : PyStr → Option PyStr)
    (dataFile : Option (List PyStr)) (S : ServerState)
    (hS : initFromConfig config dataFile = Except.ok S) :
    (S.reread_on_query = true ↔
      pyLowerAscii ((config (pyS "reread_on_query")).getD (pyS "False")) =
        pyS "true") ∧
    (S.use_ssl = true ↔
      ∃ v, config (pyS "use_ssl") = some v ∧ v ≠ []) := by
  unfold initFromConfig at hS
  split at hS
  · exact absurd hS (by simp)
  · split at hS
    · exact absurd hS (by simp)
    · split at hS
      · split at hS
        · exact absurd hS (by simp)
        · split at hS
          · exact absurd hS (by simp)
          · exact absurd hS (by simp)
      · cases hS
        constructor
        · simp [rereadFlagOf]
        · cases hv : config (pyS "use_ssl") with
          | none => simp [sslFlagOf, hv]
          | some v =>
            simp only [sslFlagOf, hv, decide_eq_true_eq]
            constructor
            · intro h
              exact ⟨v, rfl, h⟩
            · rintro ⟨v', hv', hne⟩
              cases Option.some_inj.mp hv'
              exact hne

/-- C9 amended witness: at the concrete config of `envFalseFlags`, use_ssl
comes out enabled because the key is present with the non-empty value
"false". -/
theorem flag_parsing_amended_witness :
    ∃ v, read_config
        [pyS "linuxpath=/d.txt", pyS "use_ssl=false", pyS "reread_on_query=false"]
        (pyS "use_ssl") = some v ∧ v ≠ [] :=
  (flag_parsing_amended
    (read_config
      [pyS "linuxpath=/d.txt", pyS "use_ssl=false", pyS "reread_on_query=false"])
    (some []) ⟨pyS "/d.txt", false, 1024, true, []⟩ rfl).2.mp rfl

end StringSearchSrv
